import Mathlib

/-!
# Update dispatch and confirmation flow of the Raspberry Pi Telegram bot

A shallow embedding of `main.go`: the allow-list check (`isAvailableID`), the
text-command dispatcher (`processUpdate`), the confirmation flow
(`processCallbackQuery`) and the per-update callback that `main` hands to the
polling loop.

Go values are embedded as follows.

* A pointer field that the code dereferences (`*update.Message.Text`,
  `*sent.Description`, ...) is an `Option`; dereferencing `none` is the Go
  runtime panic "nil pointer dereference", recorded as `Outcome.nilDereference`.
* The transport client, the status probes and the privileged actions are
  external collaborators.  Their answers are the fields of `Env`; every call
  the handlers make to the transport or to a privileged action, and every log
  line, is appended to the `trace` of the run in program order.
* `map[string]interface{}` is an association list with unique keys.
* The types of the transport library are not part of this repository; the structures below
  list the fields that `main.go` reads, a field being an `Option` where it is a pointer.
-/

namespace RpiBot

/-! ## Data carried by the transport -/

/-- Sender of a message or of a callback query (`bot.User`). -/
structure User where
  FirstName : String
  Username : Option String
deriving DecidableEq, Repr

/-- Chat a message belongs to (`bot.Chat`). -/
structure Chat where
  ID : Int
deriving DecidableEq, Repr

/-- Inbound message (`bot.Message`); `From` and `Text` are pointers. -/
structure Message where
  MessageID : Int
  From : Option User
  Chat : Chat
  Text : Option String
deriving DecidableEq, Repr

/-- Inbound callback query (`bot.CallbackQuery`); `Message` and `Data` are pointers. -/
structure CallbackQuery where
  ID : String
  From : User
  Message : Option Message
  Data : Option String
deriving DecidableEq, Repr

/-- Inbound update (`bot.Update`); both payloads are pointers. -/
structure Update where
  Message : Option Message
  CallbackQuery : Option CallbackQuery
deriving DecidableEq, Repr

/-- Modelled from the spec: the transport library method `Update.HasMessage`, which is not
part of this repository; an update "has a message" when its message payload is present. -/
def Update.HasMessage (u : Update) : Bool := u.Message.isSome

/-- Modelled from the spec: the transport library method `Update.HasCallbackQuery`, which is
not part of this repository; true when the callback-query payload is present. -/
def Update.HasCallbackQuery (u : Update) : Bool := u.CallbackQuery.isSome

/-- Acknowledgement of an outbound call (`bot.APIResponse`); `Description` is a pointer. -/
structure APIResponse where
  Ok : Bool
  Description : Option String
deriving DecidableEq, Repr

/-- Button of the persistent reply keyboard. -/
structure KeyboardButton where
  Text : String
deriving DecidableEq, Repr

/-- Button of an inline keyboard; `CallbackData` is a pointer. -/
structure InlineKeyboardButton where
  Text : String
  CallbackData : Option String
deriving DecidableEq, Repr

/-- Values stored in an options map (`interface{}`), restricted to what `main.go` stores. -/
inductive OptionValue where
  | ReplyKeyboardMarkup (Keyboard : List (List KeyboardButton)) (ResizeKeyboard : Bool)
  | InlineKeyboardMarkup (InlineKeyboard : List (List InlineKeyboardButton))
  | int (n : Int)
  | str (s : String)
deriving DecidableEq, Repr

/-- Options map `map[string]interface{}`. -/
abbrev Options := List (String × OptionValue)

/-- Assignment `options[key] = value`: replaces the binding of `key` or adds one. -/
def Options.set : Options → String → OptionValue → Options
  | [], key, value => [(key, value)]
  | (k, v) :: rest, key, value =>
    if k = key then (k, value) :: rest else (k, v) :: Options.set rest key value

/-- Geographic position; each coordinate is a float that the handlers only pass through,
kept here as its IEEE-754 bit pattern. -/
structure Location where
  Latitude : Nat
  Longitude : Nat
deriving DecidableEq, Repr

/-- Result of the geo-location probe (`status.GeoLocation`). -/
structure GeoInfo where
  Location : Location
deriving DecidableEq, Repr

/-! ## Constants of `main.go` -/

def LocationLivePeriodSeconds : Int := 60

def CommandStart : String := "/start"
def CommandStatus : String := "/status"
def CommandLocation : String := "/where"
def CommandReboot : String := "/reboot"
def CommandShutdown : String := "/shutdown"
def CommandHelp : String := "/help"
def CommandCancel : String := "/cancel"

def MessageConfirmReboot : String := "Really reboot?"
def MessageConfirmShutdown : String := "Really shutdown?"
def MessageRebooting : String := "Rebooting..."
def MessageShuttingdown : String := "Shutting down..."
def MessageHelp : String :=
  "Usage:\n\n/status  : Show current status of your Raspberry Pi.\n/where   : Show current location of your Raspberry Pi. (based on external IP)\n/reboot  : Reboot your Raspberry Pi.\n/shutdown: Shutdown your Raspberry Pi.\n/help    : Show this help message.\n"
def MessageCanceled : String := "Canceled."
def MessageError : String := "Error."

def ButtonYes : String := "Yes"
def ButtonCancel : String := "Cancel"

/-- Chat action constant of the transport library (`bot.ChatActionTyping`). -/
def ChatActionTyping : String := "typing"

/-- Reply keyboard built once in `init`. -/
def allKeyboards : List (List KeyboardButton) :=
  [[⟨CommandStatus⟩, ⟨CommandLocation⟩, ⟨CommandHelp⟩], [⟨CommandReboot⟩, ⟨CommandShutdown⟩]]

/-- Go `strings.HasPrefix(s, prefix)`.  Go compares bytes; on valid UTF-8 text a byte prefix
that is itself valid UTF-8 is the same as a prefix of the character sequence. -/
def HasPrefix (s pre : String) : Bool := pre.data.isPrefixOf s.data

/-! ## Effects, runs and the environment -/

/-- Outbound transport calls, with the arguments the handler passes. -/
inductive Call where
  | SendChatAction (chatID : Int) (action : String)
  | SendMessage (chatID : Int) (text : String) (options : Options)
  | SendLocation (chatID : Int) (latitude longitude : Nat) (options : Options)
  | AnswerCallbackQuery (callbackQueryID : String) (options : Options)
  | EditMessageText (text : String) (options : Options)
deriving DecidableEq, Repr

/-- Argument of a log line. -/
inductive LogArg where
  | str (s : String)
  | query (q : CallbackQuery)
deriving DecidableEq, Repr

/-- Observable steps of a handler, in program order. -/
inductive Effect where
  | call (c : Call)
  | RebootNow
  | ShutdownNow
  | Printf (format : String) (args : List LogArg)
  | Println (line : String)
deriving DecidableEq, Repr

/-- How a handler invocation ends: it returns a value, or the Go runtime panics on a nil
pointer dereference. -/
inductive Outcome (α : Type) where
  | returned (value : α)
  | nilDereference
deriving DecidableEq, Repr

/-- A handler invocation: the effects performed and how it ended. -/
structure Run (α : Type) where
  trace : List Effect
  outcome : Outcome α
deriving DecidableEq, Repr

/-- Returning without effects. -/
def Run.pure {α : Type} (a : α) : Run α := ⟨[], .returned a⟩

/-- Sequencing: the continuation runs only if the first part returned. -/
def Run.bind {α β : Type} (m : Run α) (f : α → Run β) : Run β :=
  match m.outcome with
  | .returned a => ⟨m.trace ++ (f a).trace, (f a).outcome⟩
  | .nilDereference => ⟨m.trace, .nilDereference⟩

instance : Monad Run where
  pure := Run.pure
  bind := Run.bind

/-- Performing one effect. -/
def emit (e : Effect) : Run Unit := ⟨[e], .returned ()⟩

/-- Pointer dereference `*p`. -/
def deref {α : Type} : Option α → Run α
  | some a => ⟨[], .returned a⟩
  | none => ⟨[], .nilDereference⟩

/-- Go error value: `none` is `nil`, `some s` an error whose `Error()` is `s`. -/
abbrev GoError := Option String

/-- Global configuration and the answers of the external collaborators. -/
structure Env where
  availableIds : List String
  isVerbose : Bool
  api : Call → APIResponse
  Hostname : String × GoError
  IpAddresses : List String
  ExternalIpAddress : String × GoError
  Uptime : String × GoError
  FreeSpaces : String × GoError
  GeoLocation : String → GeoInfo × GoError
  RebootNow : String × GoError
  ShutdownNow : String × GoError

/-- An outbound transport call: recorded, then answered by the environment. -/
def call (env : Env) (c : Call) : Run APIResponse := ⟨[.call c], .returned (env.api c)⟩

/-- The recurring tail `if !sent.Ok then log.Printf(format, *sent.Description)`. -/
def logFailure (format : String) (sent : APIResponse) : Run Unit :=
  if sent.Ok then pure ()
  else do
    let description ← deref sent.Description
    emit (.Printf format [.str description])

/-! ## The handlers -/

/-- Allow-list membership, `isAvailableID` (lines 121-128). -/
def isAvailableID (availableIds : List String) (id : String) : Bool :=
  match availableIds with
  | [] => false
  | v :: rest => if v = id then true else isAvailableID rest id

/-- Default options of a text reply, `defaultOptions` (lines 355-362). -/
def defaultOptions : Options :=
  [("reply_markup", .ReplyKeyboardMarkup allKeyboards true)]

/-- Branch `/start` of `processUpdate` (lines 157-162). -/
def processUpdate.start (env : Env) (chatID : Int) (options : Options) : Run Unit := do
  let message := MessageHelp
  let sent ← call env (.SendMessage chatID message options)
  logFailure "*** Failed to send message: %s" sent

/-- Composite text of the `/status` reply (lines 164-187). -/
def processUpdate.statusText (env : Env) : String :=
  "Hostname : " ++ env.Hostname.1 ++ "\n\nInternal IP : " ++ String.intercalate ", " env.IpAddresses
    ++ "\n\nExternal IP : " ++ env.ExternalIpAddress.1 ++ "\n\nUptime :\n" ++ env.Uptime.1
    ++ "\n\nFree Spaces :\n" ++ env.FreeSpaces.1

/-- Branch `/status` of `processUpdate` (lines 164-191). -/
def processUpdate.status (env : Env) (chatID : Int) (options : Options) : Run Unit := do
  let sent ← call env (.SendMessage chatID (processUpdate.statusText env) options)
  logFailure "*** Failed to send message: %s" sent

/-- Branch `/where` of `processUpdate` (lines 193-222). -/
def processUpdate.location (env : Env) (chatID : Int) (options : Options) : Run Unit :=
  match env.ExternalIpAddress with
  | (extIP, none) =>
    match env.GeoLocation extIP with
    | (geoInfo, none) => do
      let options := options.set "live_period" (.int LocationLivePeriodSeconds)
      let sent ← call env
        (.SendLocation chatID geoInfo.Location.Latitude geoInfo.Location.Longitude options)
      logFailure "*** Failed to send location: %s" sent
    | (_, some err) => do
      let sent ← call env (.SendMessage chatID ("Failed to get geo location: " ++ err) options)
      logFailure "*** Failed to send message: %s" sent
  | (_, some err) => do
    let sent ← call env
      (.SendMessage chatID ("Failed to get external ip address: " ++ err) options)
    logFailure "*** Failed to send message: %s" sent

/-- Branch `/reboot` of `processUpdate` (lines 224-249). -/
def processUpdate.reboot (env : Env) (chatID : Int) (options : Options) : Run Unit := do
  let reboot := CommandReboot
  let cancel := CommandCancel
  let buttons : List (List InlineKeyboardButton) :=
    [[⟨ButtonYes, some reboot⟩, ⟨ButtonCancel, some cancel⟩]]
  let options := options.set "reply_markup" (.InlineKeyboardMarkup buttons)
  let message := MessageConfirmReboot
  let sent ← call env (.SendMessage chatID message options)
  logFailure "*** Failed to send message: %s" sent

/-- Branch `/shutdown` of `processUpdate` (lines 251-276). -/
def processUpdate.shutdown (env : Env) (chatID : Int) (options : Options) : Run Unit := do
  let shutdown := CommandShutdown
  let cancel := CommandCancel
  let buttons : List (List InlineKeyboardButton) :=
    [[⟨ButtonYes, some shutdown⟩, ⟨ButtonCancel, some cancel⟩]]
  let options := options.set "reply_markup" (.InlineKeyboardMarkup buttons)
  let message := MessageConfirmShutdown
  let sent ← call env (.SendMessage chatID message options)
  logFailure "*** Failed to send message: %s" sent

/-- Branch `/help` of `processUpdate` (lines 278-282). -/
def processUpdate.help (env : Env) (chatID : Int) (options : Options) : Run Unit := do
  let message := MessageHelp
  let sent ← call env (.SendMessage chatID message options)
  logFailure "*** Failed to send message: %s" sent

/-- Final `else` branch of `processUpdate` (lines 284-291). -/
def processUpdate.unknown (env : Env) (chatID : Int) (txt : String) (options : Options) :
    Run Unit := do
  let message := "No such command: " ++ txt
  emit (.Println message)
  let sent ← call env (.SendMessage chatID message options)
  logFailure "*** Failed to send message: %s" sent

/-- The `if / else if` chain of `processUpdate` (lines 156-292). -/
def processUpdate.dispatch (env : Env) (chatID : Int) (txt : String) (options : Options) :
    Run Unit :=
  if HasPrefix txt CommandStart then processUpdate.start env chatID options
  else if HasPrefix txt CommandStatus then processUpdate.status env chatID options
  else if HasPrefix txt CommandLocation then processUpdate.location env chatID options
  else if HasPrefix txt CommandReboot then processUpdate.reboot env chatID options
  else if HasPrefix txt CommandShutdown then processUpdate.shutdown env chatID options
  else if HasPrefix txt CommandHelp then processUpdate.help env chatID options
  else processUpdate.unknown env chatID txt options

/-- Handler of a message update, `processUpdate` (lines 131-296). -/
def processUpdate (env : Env) (update : Update) : Run Bool := do
  let message ← deref update.Message
  let sender ← deref message.From
  match sender.Username with
  | none =>
    emit (.Printf "*** Not allowed (no user name): %s" [.str sender.FirstName])
    pure false
  | some userID =>
    if !isAvailableID env.availableIds userID then
      emit (.Printf "*** Id not allowed: %s" [.str userID])
      pure false
    else
      if update.HasMessage then
        let txt ← deref message.Text
        if env.isVerbose then
          emit (.Printf "received telegram message: %s" [.str txt])
        let options := defaultOptions
        let _ ← call env (.SendChatAction message.Chat.ID ChatActionTyping)
        processUpdate.dispatch env message.Chat.ID txt options
      pure false

/-- Terminal text chosen from the callback data (lines 306-315). -/
def processCallbackQuery.message (txt : String) : String :=
  if HasPrefix txt CommandCancel then MessageCanceled
  else if HasPrefix txt CommandReboot then MessageRebooting
  else if HasPrefix txt CommandShutdown then MessageShuttingdown
  else MessageError

/-- Follow-up after a privileged action (lines 329-333 and 336-340): when the action
reports an error its output is sent to `update.Message.Chat.ID`. -/
def processCallbackQuery.report (env : Env) (update : Update) (options : Options)
    (result : String × GoError) : Run Unit :=
  match result with
  | (_, none) => pure ()
  | (output, some _) => do
    let message ← deref update.Message
    let sent ← call env (.SendMessage message.Chat.ID output options)
    logFailure "*** Failed to send message: %s" sent

/-- Handler of a callback update, `processCallbackQuery` (lines 299-352). -/
def processCallbackQuery (env : Env) (update : Update) : Run Bool := do
  let query ← deref update.CallbackQuery
  let txt ← deref query.Data
  let message := processCallbackQuery.message txt
  let apiResult ← call env (.AnswerCallbackQuery query.ID [("text", .str message)])
  if apiResult.Ok then
    let prompt ← deref query.Message
    let options : Options :=
      [("chat_id", .int prompt.Chat.ID), ("message_id", .int prompt.MessageID)]
    let apiResult ← call env (.EditMessageText message options)
    if apiResult.Ok then
      if message = MessageRebooting then
        emit .RebootNow
        processCallbackQuery.report env update options env.RebootNow
      else if message = MessageShuttingdown then
        emit .ShutdownNow
        processCallbackQuery.report env update options env.ShutdownNow
      else if message ≠ MessageCanceled then
        emit (.Printf "*** Unprocessable callback query message: %s" [.str message])
      pure true
    else
      let description ← deref apiResult.Description
      emit (.Printf "*** Failed to edit message text: %s" [.str description])
      pure false
  else
    emit (.Printf "*** Failed to answer callback query: %+v" [.query query])
    pure false

/-- The per-update callback that `main` hands to `StartMonitoringUpdates` (lines 375-385). -/
def main.onUpdate (env : Env) (update : Update) (err : GoError) : Run Unit :=
  match err with
  | none =>
    if update.HasMessage then do
      let _ ← processUpdate env update
      pure ()
    else if update.HasCallbackQuery then do
      let _ ← processCallbackQuery env update
      pure ()
    else pure ()
  | some e => emit (.Printf "*** Error while receiving update (%s)" [.str e])

/-! ## Observations on traces -/

/-- Outbound transport calls. -/
def Effect.isOutbound : Effect → Bool
  | .call _ => true
  | _ => false

/-- Privileged device actions. -/
def Effect.isAction : Effect → Bool
  | .RebootNow => true
  | .ShutdownNow => true
  | _ => false

/-- Steps of the confirmation flow: answer-callback, edit-message-text, privileged action. -/
def Effect.isFlowStep : Effect → Bool
  | .call (.AnswerCallbackQuery _ _) => true
  | .call (.EditMessageText _ _) => true
  | .RebootNow => true
  | .ShutdownNow => true
  | _ => false

/-- A run that performs no privileged action. -/
def Run.NoAction {α : Type} (r : Run α) : Prop := ∀ e ∈ r.trace, e.isAction = false

/-- The answer-callback call for query `q` carrying token `txt` (line 318). -/
def answerOf (q : CallbackQuery) (txt : String) : Call :=
  .AnswerCallbackQuery q.ID [("text", .str (processCallbackQuery.message txt))]

/-- The edit of prompt `p` to the terminal text of token `txt` (lines 320-324). -/
def editOf (p : Message) (txt : String) : Call :=
  .EditMessageText (processCallbackQuery.message txt)
    [("chat_id", .int p.Chat.ID), ("message_id", .int p.MessageID)]

/-- The privileged action that goes with a terminal text (lines 327-336). -/
def actionOf (message : String) : List Effect :=
  if message = MessageRebooting then [.RebootNow]
  else if message = MessageShuttingdown then [.ShutdownNow]
  else []

/-- Flow steps of a callback run, as determined by the two acknowledgements: the answer, then
the edit if the answer was acknowledged and the prompt is known, then the action if the edit
was acknowledged. -/
def flowSteps (env : Env) (q : CallbackQuery) (txt : String) : List Effect :=
  .call (answerOf q txt) ::
    (if (env.api (answerOf q txt)).Ok then
      match q.Message with
      | none => []
      | some p =>
        .call (editOf p txt) ::
          (if (env.api (editOf p txt)).Ok then actionOf (processCallbackQuery.message txt)
           else [])
    else [])

/-! ## The router of the specification -/

/-- Branches of the `if / else if` chain of `processUpdate`. -/
inductive Branch where
  | start
  | status
  | location
  | reboot
  | shutdown
  | help
  | unknown (raw : String)
deriving DecidableEq, Repr

/-- Token table of the specification, in priority order. -/
def commandTable : List (String × Branch) :=
  [(CommandStart, .start), (CommandStatus, .status), (CommandLocation, .location),
   (CommandReboot, .reboot), (CommandShutdown, .shutdown), (CommandHelp, .help)]

/-- Router as the specification words it: the branch of the first table entry whose token is
a leading prefix of the text, and `unknown` carrying the text when there is none. -/
def route (text : String) : Branch :=
  match commandTable.find? (fun entry => HasPrefix text entry.1) with
  | some entry => entry.2
  | none => .unknown text

/-- Body of a branch, as `processUpdate` runs it. -/
def runBranch (env : Env) (chatID : Int) (options : Options) : Branch → Run Unit
  | .start => processUpdate.start env chatID options
  | .status => processUpdate.status env chatID options
  | .location => processUpdate.location env chatID options
  | .reboot => processUpdate.reboot env chatID options
  | .shutdown => processUpdate.shutdown env chatID options
  | .help => processUpdate.help env chatID options
  | .unknown raw => processUpdate.unknown env chatID raw options

/-! ## Scenarios -/

/-- A deployment where only `alice` is allow-listed, every call is acknowledged and every
collaborator succeeds. -/
def demoEnv : Env where
  availableIds := ["alice"]
  isVerbose := false
  api := fun _ => ⟨true, none⟩
  Hostname := ("pi", none)
  IpAddresses := ["10.0.0.2"]
  ExternalIpAddress := ("203.0.113.7", none)
  Uptime := ("up 1 day", none)
  FreeSpaces := ("/: 1.0G", none)
  GeoLocation := fun _ => (⟨⟨0, 0⟩⟩, none)
  RebootNow := ("", none)
  ShutdownNow := ("", none)

/-- A message update in chat 42 from a sender with the given username and text. -/
def textUpdate (username : Option String) (text : Option String) : Update :=
  ⟨some ⟨7, some ⟨"Sender", username⟩, ⟨42⟩, text⟩, none⟩

/-- A callback update without message payload: the sender pressed a button of prompt 7 in
chat 42, the button carrying `data`. -/
def callbackUpdate (username : Option String) (data : Option String) : Update :=
  ⟨none, some ⟨"q1", ⟨"Sender", username⟩, some ⟨7, none, ⟨42⟩, some MessageConfirmReboot⟩, data⟩⟩

/-- The deployment of `demoEnv`, except that `RebootNow` fails with diagnostic output. -/
def rebootFailsEnv : Env :=
  { demoEnv with RebootNow := ("reboot: Operation not permitted", some "exit status 1") }

/-- The deployment of `demoEnv`, except that every outbound call is answered
`ok = false` without a description. -/
def nackEnv : Env :=
  { demoEnv with api := fun _ => ⟨false, none⟩ }

/-- The deployment of `demoEnv`, except that every outbound call is answered
`ok = false` with the description "Bad Request". -/
def describedNackEnv : Env :=
  { demoEnv with api := fun _ => ⟨false, some "Bad Request"⟩ }

/-- The deployment of `demoEnv`, except that edit-message-text is answered `ok = false`
without a description. -/
def editNackEnv : Env :=
  { demoEnv with api := fun c =>
      match c with
      | .EditMessageText _ _ => ⟨false, none⟩
      | _ => ⟨true, none⟩ }

/-! ## Lemmas on runs -/

@[simp] theorem Run.bind_eq {α β : Type} (m : Run α) (f : α → Run β) : m >>= f = Run.bind m f := rfl
@[simp] theorem Run.pure_eq {α : Type} (a : α) : (pure a : Run α) = Run.pure a := rfl

theorem isAvailableID_iff (ids : List String) (id : String) :
    isAvailableID ids id = true ↔ id ∈ ids := by
  induction ids with
  | nil => simp [isAvailableID]
  | cons v rest ih =>
    simp only [isAvailableID, List.mem_cons]
    by_cases h : v = id
    · simp [h]
    · simp [h, ih, Ne.symm h]


theorem Run.bind_call {β : Type} (env : Env) (c : Call) (f : APIResponse → Run β) :
    Run.bind (call env c) f = ⟨.call c :: (f (env.api c)).trace, (f (env.api c)).outcome⟩ := rfl

theorem Run.bind_emit {β : Type} (e : Effect) (f : Unit → Run β) :
    Run.bind (emit e) f = ⟨e :: (f ()).trace, (f ()).outcome⟩ := rfl

theorem Run.bind_pure {α β : Type} (a : α) (f : α → Run β) : Run.bind (Run.pure a) f = f a := rfl

theorem Run.bind_deref_some {α β : Type} (a : α) (f : α → Run β) :
    Run.bind (deref (some a)) f = f a := rfl

theorem Run.bind_deref_none {α β : Type} (f : α → Run β) :
    Run.bind (deref (none : Option α)) f = ⟨[], .nilDereference⟩ := rfl

theorem Run.bind_trace_subset {α β : Type} (m : Run α) (f : α → Run β) (e : Effect)
    (h : e ∈ (Run.bind m f).trace) : e ∈ m.trace ∨ ∃ a, e ∈ (f a).trace := by
  unfold Run.bind at h
  cases hm : m.outcome with
  | returned a =>
    rw [hm] at h
    rcases List.mem_append.1 h with h1 | h2
    · exact Or.inl h1
    · exact Or.inr ⟨a, h2⟩
  | nilDereference =>
    rw [hm] at h
    exact Or.inl h

theorem noAction_bind {α β : Type} {m : Run α} {f : α → Run β}
    (hm : m.NoAction) (hf : ∀ a, (f a).NoAction) : (Run.bind m f).NoAction := by
  intro e he
  rcases Run.bind_trace_subset m f e he with h | ⟨a, h⟩
  · exact hm e h
  · exact hf a e h

theorem noAction_pure {α : Type} (a : α) : (Run.pure a).NoAction := by
  intro e he
  simp [Run.pure] at he

theorem noAction_deref {α : Type} (o : Option α) : (deref o).NoAction := by
  intro e he
  cases o <;> simp [deref] at he

theorem noAction_call (env : Env) (c : Call) : (call env c).NoAction := by
  intro e he
  simp [call] at he
  subst he
  rfl

theorem noAction_printf (format : String) (args : List LogArg) :
    (emit (.Printf format args)).NoAction := by
  intro e he
  simp [emit] at he
  subst he
  rfl

theorem noAction_println (line : String) : (emit (.Println line)).NoAction := by
  intro e he
  simp [emit] at he
  subst he
  rfl

theorem logFailure_trace (format : String) (sent : APIResponse) (e : Effect)
    (he : e ∈ (logFailure format sent).trace) : ∃ args, e = .Printf format args := by
  unfold logFailure at he
  by_cases hok : sent.Ok = true
  · simp [hok, Pure.pure, Run.pure] at he
  · cases hd : sent.Description with
    | none => simp [hok, hd, Bind.bind, Run.bind, deref] at he
    | some d =>
      simp [hok, hd, Bind.bind, Run.bind, deref, emit] at he
      exact ⟨_, he⟩

theorem noAction_logFailure (format : String) (sent : APIResponse) :
    (logFailure format sent).NoAction := by
  intro e he
  obtain ⟨args, rfl⟩ := logFailure_trace format sent e he
  rfl

theorem noAction_sendAndLog (env : Env) (c : Call) (format : String) :
    (Run.bind (call env c) (fun sent => logFailure format sent)).NoAction :=
  noAction_bind (noAction_call env c) (fun sent => noAction_logFailure format sent)

theorem runBranch_noAction (env : Env) (chatID : Int) (options : Options) (b : Branch) :
    (runBranch env chatID options b).NoAction := by
  cases b with
  | start => exact noAction_sendAndLog env _ _
  | status => exact noAction_sendAndLog env _ _
  | location =>
    simp only [runBranch, processUpdate.location]
    split
    · split
      · exact noAction_sendAndLog env _ _
      · exact noAction_sendAndLog env _ _
    · exact noAction_sendAndLog env _ _
  | reboot => exact noAction_sendAndLog env _ _
  | shutdown => exact noAction_sendAndLog env _ _
  | help => exact noAction_sendAndLog env _ _
  | unknown raw =>
    exact noAction_bind (noAction_println _) (fun _ => noAction_sendAndLog env _ _)

theorem dispatch_eq_route (env : Env) (chatID : Int) (txt : String) (options : Options) :
    processUpdate.dispatch env chatID txt options = runBranch env chatID options (route txt) := by
  simp only [processUpdate.dispatch, route, commandTable, List.find?]
  by_cases h1 : HasPrefix txt CommandStart = true
  · simp [h1, runBranch]
  by_cases h2 : HasPrefix txt CommandStatus = true
  · simp [h1, h2, runBranch]
  by_cases h3 : HasPrefix txt CommandLocation = true
  · simp [h1, h2, h3, runBranch]
  by_cases h4 : HasPrefix txt CommandReboot = true
  · simp [h1, h2, h3, h4, runBranch]
  by_cases h5 : HasPrefix txt CommandShutdown = true
  · simp [h1, h2, h3, h4, h5, runBranch]
  by_cases h6 : HasPrefix txt CommandHelp = true
  · simp [h1, h2, h3, h4, h5, h6, runBranch]
  · simp [h1, h2, h3, h4, h5, h6, runBranch]

theorem processUpdate_noAction (env : Env) (update : Update) :
    (processUpdate env update).NoAction := by
  unfold processUpdate
  refine noAction_bind (noAction_deref _) (fun message => ?_)
  refine noAction_bind (noAction_deref _) (fun sender => ?_)
  split
  · exact noAction_bind (noAction_printf _ _) (fun _ => noAction_pure _)
  · split
    · exact noAction_bind (noAction_printf _ _) (fun _ => noAction_pure _)
    · dsimp only
      split
      · refine noAction_bind (noAction_deref _) (fun txt => ?_)
        have tail : (Run.bind (call env (.SendChatAction message.Chat.ID ChatActionTyping))
            (fun _ => Run.bind (processUpdate.dispatch env message.Chat.ID txt defaultOptions)
              (fun _ => Run.pure false))).NoAction := by
          refine noAction_bind (noAction_call env _) (fun _ => ?_)
          rw [dispatch_eq_route]
          exact noAction_bind (runBranch_noAction env _ _ _) (fun _ => noAction_pure _)
        split
        · exact noAction_bind (noAction_printf _ _) (fun _ => tail)
        · exact noAction_bind (noAction_pure _) (fun _ => tail)
      · exact noAction_bind (noAction_pure _) (fun _ => noAction_pure _)

theorem processUpdate_authorized (env : Env) (update : Update) (m : Message) (u : User)
    (name txt : String) (hm : update.Message = some m) (hu : m.From = some u)
    (hn : u.Username = some name) (hauth : name ∈ env.availableIds) (ht : m.Text = some txt) :
    processUpdate env update = (do
      if env.isVerbose then
        emit (.Printf "received telegram message: %s" [.str txt])
      let _ ← call env (.SendChatAction m.Chat.ID ChatActionTyping)
      runBranch env m.Chat.ID defaultOptions (route txt)
      pure false) := by
  have ha : isAvailableID env.availableIds name = true := (isAvailableID_iff _ _).2 hauth
  simp [processUpdate, hm, hu, hn, ht, ha, Update.HasMessage, Run.bind_deref_some,
    dispatch_eq_route]

theorem Run.bind_trace {α β : Type} (m : Run α) (f : α → Run β) :
    (Run.bind m f).trace =
      m.trace ++ (match m.outcome with
        | .returned a => (f a).trace
        | .nilDereference => []) := by
  unfold Run.bind
  cases m.outcome <;> simp

theorem logFailure_filter_outbound (format : String) (sent : APIResponse) :
    (logFailure format sent).trace.filter Effect.isOutbound = [] := by
  rw [List.filter_eq_nil_iff]
  intro e he
  obtain ⟨args, rfl⟩ := logFailure_trace format sent e he
  simp [Effect.isOutbound]

theorem route_first_match (txt : String) (before after : List (String × Branch)) (tok : String)
    (b : Branch) (htable : commandTable = before ++ (tok, b) :: after)
    (hmatch : HasPrefix txt tok = true)
    (hfirst : ∀ entry ∈ before, HasPrefix txt entry.1 = false) : route txt = b := by
  have hnone : before.find? (fun entry => HasPrefix txt entry.1) = none := by
    rw [List.find?_eq_none]
    intro entry he
    simp [hfirst entry he]
  simp only [route]
  rw [htable, List.find?_append, hnone]
  simp [List.find?, hmatch]

theorem route_no_match (txt : String)
    (hnone : ∀ entry ∈ commandTable, HasPrefix txt entry.1 = false) : route txt = .unknown txt := by
  have h : commandTable.find? (fun entry => HasPrefix txt entry.1) = none := by
    rw [List.find?_eq_none]
    intro entry he
    simp [hnone entry he]
  simp [route, h]

theorem route_unknown_raw (txt raw : String) (h : route txt = .unknown raw) : raw = txt := by
  unfold route at h
  split at h
  · rename_i entry hfind
    have hmem := List.mem_of_find?_eq_some hfind
    simp [commandTable] at hmem
    rcases hmem with rfl | rfl | rfl | rfl | rfl | rfl <;> simp at h
  · simpa using h.symm

theorem sendAndLog_outbound (env : Env) (c : Call) (format : String) :
    (Run.bind (call env c) (fun sent => logFailure format sent)).trace.filter Effect.isOutbound
      = [.call c] := by
  simp [Run.bind_call, List.filter, Effect.isOutbound, logFailure_filter_outbound]

theorem authorized_outbound (env : Env) (update : Update) (m : Message) (u : User)
    (name txt : String) (hm : update.Message = some m) (hu : m.From = some u)
    (hn : u.Username = some name) (hauth : name ∈ env.availableIds) (ht : m.Text = some txt) :
    (processUpdate env update).trace.filter Effect.isOutbound =
      .call (.SendChatAction m.Chat.ID ChatActionTyping) ::
        (runBranch env m.Chat.ID defaultOptions (route txt)).trace.filter Effect.isOutbound := by
  rw [processUpdate_authorized env update m u name txt hm hu hn hauth ht]
  by_cases hv : env.isVerbose = true
  · simp [hv, Run.bind_trace, Run.bind_emit, Run.bind_call, List.filter, Effect.isOutbound,
      Run.pure, Pure.pure]
    cases (runBranch env m.Chat.ID defaultOptions (route txt)).outcome <;> simp
  · simp [hv, Run.bind_trace, Run.bind_pure, Run.bind_call, List.filter, Effect.isOutbound,
      Run.pure, Pure.pure]
    cases (runBranch env m.Chat.ID defaultOptions (route txt)).outcome <;> simp

/-! ## Text messages -/

/-- C2: a text message whose sender has no username, or a username outside `availableIds`,
makes `processUpdate` return false with a trace that holds no outbound call and no privileged
action, whatever the text; and `isAvailableID` is false on every id outside the list. -/
theorem C2_unlisted_sender_is_dropped (env : Env) (update : Update) (m : Message) (u : User)
    (hm : update.Message = some m) (hu : m.From = some u)
    (hid : ∀ name, u.Username = some name → name ∉ env.availableIds) :
    (processUpdate env update).outcome = .returned false ∧
    (∀ e ∈ (processUpdate env update).trace, e.isOutbound = false ∧ e.isAction = false) ∧
    (∀ (ids : List String) (id : String), id ∉ ids → isAvailableID ids id = false) := by
  have key : ∀ (ids : List String) (id : String), id ∉ ids → isAvailableID ids id = false := by
    intro ids id h
    cases hb : isAvailableID ids id with
    | false => rfl
    | true => exact absurd ((isAvailableID_iff _ _).1 hb) h
  refine ⟨?_, ?_, key⟩
  · cases hn : u.Username with
    | none => simp [processUpdate, hm, hu, hn, deref, Run.bind, Run.pure, Pure.pure, emit]
    | some name =>
      simp [processUpdate, hm, hu, hn, deref, Run.bind, Run.pure, Pure.pure, emit,
        key _ name (hid name hn)]
  · cases hn : u.Username with
    | none =>
      simp [processUpdate, hm, hu, hn, deref, Run.bind, Run.pure, Pure.pure, emit,
        Effect.isOutbound, Effect.isAction]
    | some name =>
      simp [processUpdate, hm, hu, hn, deref, Run.bind, Run.pure, Pure.pure, emit,
        key _ name (hid name hn), Effect.isOutbound, Effect.isAction]

/-- Scenario for C2: `bob`, who is not allow-listed, sends `/status`; the run returns false
and its whole trace is one log line. -/
theorem C2_unlisted_sender_is_dropped_witness :
    (processUpdate demoEnv (textUpdate (some "bob") (some "/status"))).outcome = .returned false ∧
    (processUpdate demoEnv (textUpdate (some "bob") (some "/status"))).trace
      = [.Printf "*** Id not allowed: %s" [.str "bob"]] :=
  ⟨(C2_unlisted_sender_is_dropped demoEnv (textUpdate (some "bob") (some "/status"))
      ⟨7, some ⟨"Sender", some "bob"⟩, ⟨42⟩, some "/status"⟩ ⟨"Sender", some "bob"⟩ rfl rfl
      (by intro name h; cases h; decide)).1, by decide⟩

/-- C5: for a text from an allow-listed sender, `processUpdate` runs the typing indicator and
then exactly the branch that the first-match router of the specification selects: the branch
of the first table entry (in the order /start, /status, /where, /reboot, /shutdown, /help)
whose token is a leading prefix of the text, and the unknown branch when no token is.
The unknown branch carries the text unchanged and its only message is
"No such command: " followed by that text. "/statusfoo" routes to status; "/xyz", "/cancel"
and (matching being case-sensitive) "/Status" route to unknown. -/
theorem C5_dispatch_is_first_match (env : Env) (update : Update) (m : Message) (u : User)
    (name txt : String) (hm : update.Message = some m) (hu : m.From = some u)
    (hn : u.Username = some name) (hauth : name ∈ env.availableIds) (ht : m.Text = some txt) :
    processUpdate env update = (do
      if env.isVerbose then
        emit (.Printf "received telegram message: %s" [.str txt])
      let _ ← call env (.SendChatAction m.Chat.ID ChatActionTyping)
      runBranch env m.Chat.ID defaultOptions (route txt)
      pure false) ∧
    (∀ (before after : List (String × Branch)) (tok : String) (b : Branch),
      commandTable = before ++ (tok, b) :: after → HasPrefix txt tok = true →
      (∀ entry ∈ before, HasPrefix txt entry.1 = false) → route txt = b) ∧
    ((∀ entry ∈ commandTable, HasPrefix txt entry.1 = false) → route txt = .unknown txt) ∧
    (∀ raw, route txt = .unknown raw → raw = txt ∧
      (processUpdate env update).trace.filter Effect.isOutbound =
        [.call (.SendChatAction m.Chat.ID ChatActionTyping),
         .call (.SendMessage m.Chat.ID ("No such command: " ++ txt) defaultOptions)]) ∧
    route "/statusfoo" = .status ∧ route "/xyz" = .unknown "/xyz" ∧
    route "/cancel" = .unknown "/cancel" ∧ route "/Status" = .unknown "/Status" := by
  refine ⟨processUpdate_authorized env update m u name txt hm hu hn hauth ht,
    fun before after tok b h1 h2 h3 => route_first_match txt before after tok b h1 h2 h3,
    route_no_match txt, ?_, by decide, by decide, by decide, by decide⟩
  intro raw hraw
  have hr := route_unknown_raw txt raw hraw
  subst hr
  refine ⟨rfl, ?_⟩
  rw [authorized_outbound env update m u name raw hm hu hn hauth ht, hraw]
  simp only [runBranch, processUpdate.unknown, Run.bind_eq, Run.bind_emit]
  rw [List.filter_cons_of_neg (by simp [Effect.isOutbound]), sendAndLog_outbound]

/-- Scenario for C5: `alice` sends `/xyz`; the outbound calls are the typing indicator and
the single reply "No such command: /xyz". -/
theorem C5_dispatch_is_first_match_witness :
    route "/xyz" = .unknown "/xyz" ∧
    (processUpdate demoEnv (textUpdate (some "alice") (some "/xyz"))).trace.filter
        Effect.isOutbound =
      [.call (.SendChatAction 42 ChatActionTyping),
       .call (.SendMessage 42 ("No such command: " ++ "/xyz") defaultOptions)] :=
  ⟨by decide,
   ((C5_dispatch_is_first_match demoEnv (textUpdate (some "alice") (some "/xyz"))
      ⟨7, some ⟨"Sender", some "alice"⟩, ⟨42⟩, some "/xyz"⟩ ⟨"Sender", some "alice"⟩
      "alice" "/xyz" rfl rfl rfl (by decide) rfl).2.2.2.1 "/xyz" (by decide)).2⟩

/-- C6: a text from an allow-listed sender that routes to reboot (resp. shutdown) produces,
besides the typing indicator, exactly one outbound call: the confirmation prompt, whose
inline keyboard is one row of two buttons, "Yes" carrying the reboot (resp. shutdown) token
and "Cancel" carrying the cancel token.  No run of `processUpdate`, on any update and in any
environment, performs `RebootNow` or `ShutdownNow`. -/
theorem C6_destructive_command_only_prompts (env : Env) (update : Update) (m : Message)
    (u : User) (name txt : String) (hm : update.Message = some m) (hu : m.From = some u)
    (hn : u.Username = some name) (hauth : name ∈ env.availableIds) (ht : m.Text = some txt) :
    (route txt = .reboot →
      (processUpdate env update).trace.filter Effect.isOutbound =
        [.call (.SendChatAction m.Chat.ID ChatActionTyping),
         .call (.SendMessage m.Chat.ID MessageConfirmReboot
           [("reply_markup", .InlineKeyboardMarkup
             [[⟨ButtonYes, some CommandReboot⟩, ⟨ButtonCancel, some CommandCancel⟩]])])]) ∧
    (route txt = .shutdown →
      (processUpdate env update).trace.filter Effect.isOutbound =
        [.call (.SendChatAction m.Chat.ID ChatActionTyping),
         .call (.SendMessage m.Chat.ID MessageConfirmShutdown
           [("reply_markup", .InlineKeyboardMarkup
             [[⟨ButtonYes, some CommandShutdown⟩, ⟨ButtonCancel, some CommandCancel⟩]])])]) ∧
    (∀ (anyEnv : Env) (anyUpdate : Update),
      ∀ e ∈ (processUpdate anyEnv anyUpdate).trace, e.isAction = false) := by
  refine ⟨?_, ?_, fun anyEnv anyUpdate => processUpdate_noAction anyEnv anyUpdate⟩
  · intro hr
    rw [authorized_outbound env update m u name txt hm hu hn hauth ht, hr]
    simp only [runBranch, processUpdate.reboot, Run.bind_eq]
    rw [sendAndLog_outbound]
    rfl
  · intro hr
    rw [authorized_outbound env update m u name txt hm hu hn hauth ht, hr]
    simp only [runBranch, processUpdate.shutdown, Run.bind_eq]
    rw [sendAndLog_outbound]
    rfl

/-- Scenario for C6: `alice` sends `/reboot`; the outbound calls are the typing indicator and
the prompt "Really reboot?" with the buttons Yes (/reboot) and Cancel (/cancel). -/
theorem C6_destructive_command_only_prompts_witness :
    route "/reboot" = .reboot ∧
    (processUpdate demoEnv (textUpdate (some "alice") (some "/reboot"))).trace.filter
        Effect.isOutbound =
      [.call (.SendChatAction 42 "typing"),
       .call (.SendMessage 42 "Really reboot?"
         [("reply_markup", .InlineKeyboardMarkup
           [[⟨"Yes", some "/reboot"⟩, ⟨"Cancel", some "/cancel"⟩]])])] :=
  ⟨by decide,
   (C6_destructive_command_only_prompts demoEnv (textUpdate (some "alice") (some "/reboot"))
      ⟨7, some ⟨"Sender", some "alice"⟩, ⟨42⟩, some "/reboot"⟩ ⟨"Sender", some "alice"⟩
      "alice" "/reboot" rfl rfl rfl (by decide) rfl).1 (by decide)⟩

theorem report_trace (env : Env) (update : Update) (options : Options)
    (result : String × GoError) :
    ∀ e ∈ (processCallbackQuery.report env update options result).trace,
      e.isFlowStep = false := by
  intro e he
  obtain ⟨output, err⟩ := result
  cases err with
  | none => simp [processCallbackQuery.report, Pure.pure, Run.pure] at he
  | some msg =>
    cases hm : update.Message with
    | none => simp [processCallbackQuery.report, hm, Run.bind_deref_none] at he
    | some m =>
      simp only [processCallbackQuery.report, hm, Run.bind_eq, Run.bind_deref_some,
        Run.bind_call, List.mem_cons] at he
      rcases he with rfl | he
      · rfl
      · obtain ⟨args, rfl⟩ := logFailure_trace _ _ e he
        rfl

theorem callback_shape (env : Env) (update : Update) (q : CallbackQuery) (txt : String)
    (hq : update.CallbackQuery = some q) (hd : q.Data = some txt) :
    ∃ rest, (∀ e ∈ rest, e.isFlowStep = false) ∧
      (processCallbackQuery env update).trace = flowSteps env q txt ++ rest := by
  unfold processCallbackQuery
  simp only [hq, hd, Run.bind_eq, Run.bind_deref_some, Run.bind_call, flowSteps, answerOf, editOf]
  by_cases hok : (env.api (.AnswerCallbackQuery q.ID
      [("text", .str (processCallbackQuery.message txt))])).Ok = true
  · simp only [hok, if_true]
    cases hp : q.Message with
    | none => exact ⟨[], by simp, by simp [Run.bind_deref_none]⟩
    | some p =>
      simp only [Run.bind_deref_some]
      by_cases hed : (env.api (.EditMessageText (processCallbackQuery.message txt)
          [("chat_id", .int p.Chat.ID), ("message_id", .int p.MessageID)])).Ok = true
      · simp only [hed, if_true, Run.bind_call]
        have htail : ∀ (result : String × GoError) (e : Effect),
            e ∈ (Run.bind (processCallbackQuery.report env update
              [("chat_id", .int p.Chat.ID), ("message_id", .int p.MessageID)] result)
              (fun _ => (pure true : Run Bool))).trace → e.isFlowStep = false := by
          intro result e he
          rcases Run.bind_trace_subset _ _ e he with h | ⟨_, h⟩
          · exact report_trace env update _ result e h
          · simp [Pure.pure, Run.pure] at h
        have hsr : MessageShuttingdown ≠ MessageRebooting := by decide
        have hcr : MessageCanceled ≠ MessageRebooting := by decide
        have hcs : MessageCanceled ≠ MessageShuttingdown := by decide
        by_cases hr : processCallbackQuery.message txt = MessageRebooting
        · refine ⟨_, htail env.RebootNow, ?_⟩
          simp [hr, actionOf, Run.bind_emit]
        · by_cases hs : processCallbackQuery.message txt = MessageShuttingdown
          · refine ⟨_, htail env.ShutdownNow, ?_⟩
            simp [hs, hsr, actionOf, Run.bind_emit]
          · by_cases hc : processCallbackQuery.message txt = MessageCanceled
            · exact ⟨[], by simp, by simp [hc, hcr, hcs, actionOf, Run.bind, Run.pure, Pure.pure]⟩
            · refine ⟨[.Printf "*** Unprocessable callback query message: %s"
                  [.str (processCallbackQuery.message txt)]], ?_, ?_⟩
              · intro e he
                simp at he
                subst he
                rfl
              · simp [hr, hs, hc, actionOf, Run.bind_emit, Run.pure, Pure.pure]
      · cases hdesc : (env.api (.EditMessageText (processCallbackQuery.message txt)
            [("chat_id", .int p.Chat.ID), ("message_id", .int p.MessageID)])).Description with
        | none =>
          exact ⟨[], by simp, by simp [hed, hdesc, Run.bind_call, Run.bind_deref_none]⟩
        | some d =>
          refine ⟨[.Printf "*** Failed to edit message text: %s" [.str d]], ?_, ?_⟩
          · intro e he
            simp at he
            subst he
            rfl
          · simp [hed, hdesc, Run.bind_call, Run.bind_deref_some, Run.bind_emit, Run.pure, Pure.pure]
  · refine ⟨[.Printf "*** Failed to answer callback query: %+v" [.query q]], ?_, ?_⟩
    · intro e he
      simp at he
      subst he
      rfl
    · simp [hok, Run.bind_emit, Pure.pure, Run.pure]

theorem flowSteps_all (env : Env) (q : CallbackQuery) (txt : String) :
    ∀ e ∈ flowSteps env q txt, e.isFlowStep = true := by
  intro e he
  unfold flowSteps at he
  rcases List.mem_cons.1 he with rfl | he
  · rfl
  · split at he
    · split at he
      · simp at he
      · rcases List.mem_cons.1 he with rfl | he
        · rfl
        · split at he
          · unfold actionOf at he
            split at he
            · simp at he; subst he; rfl
            · split at he
              · simp at he; subst he; rfl
              · simp at he
          · simp at he
    · simp at he

theorem callback_steps (env : Env) (update : Update) (q : CallbackQuery) (txt : String)
    (hq : update.CallbackQuery = some q) (hd : q.Data = some txt) :
    (processCallbackQuery env update).trace.filter Effect.isFlowStep = flowSteps env q txt := by
  obtain ⟨rest, hrest, htrace⟩ := callback_shape env update q txt hq hd
  rw [htrace, List.filter_append]
  have h1 : (flowSteps env q txt).filter Effect.isFlowStep = flowSteps env q txt :=
    List.filter_eq_self.2 (flowSteps_all env q txt)
  have h2 : rest.filter Effect.isFlowStep = [] := by
    rw [List.filter_eq_nil_iff]
    intro e he
    simp [hrest e he]
  rw [h1, h2, List.append_nil]

theorem isFlowStep_of_isAction (e : Effect) (h : e.isAction = true) : e.isFlowStep = true := by
  cases e <;> simp_all [Effect.isAction, Effect.isFlowStep]

theorem mem_flowSteps_of_flow (env : Env) (update : Update) (q : CallbackQuery) (txt : String)
    (hq : update.CallbackQuery = some q) (hd : q.Data = some txt) (e : Effect)
    (he : e ∈ (processCallbackQuery env update).trace) (hf : e.isFlowStep = true) :
    e ∈ flowSteps env q txt := by
  rw [← callback_steps env update q txt hq hd]
  exact List.mem_filter.2 ⟨he, hf⟩

/-! ## Callback queries -/

/-- C3: in every run of `processCallbackQuery` on a callback event the flow steps come in the
order answer-callback, edit-message-text, privileged action.  With a token present the
answer is the first effect of the run and all flow steps precede every other effect; the
edit occurs only if the answer was acknowledged; a privileged action occurs only if the edit
was acknowledged, and then the flow steps are exactly answer, edit, that action (so once,
and after the edit); a failed answer leaves the answer as the only flow step, a failed edit
leaves answer and edit.  With token "/reboot" and both acknowledgements ok the flow steps
are answer "Rebooting...", edit to "Rebooting...", `RebootNow`, and when `RebootNow`
reports no error that is the whole trace and the run returns true. -/
theorem C3_answer_then_edit_then_action (env : Env) (update : Update) (q : CallbackQuery)
    (hq : update.CallbackQuery = some q) :
    (q.Data = none → (processCallbackQuery env update).trace = []) ∧
    (∀ txt, q.Data = some txt →
      (processCallbackQuery env update).trace.head? = some (.call (answerOf q txt)) ∧
      (∃ rest, (∀ e ∈ rest, e.isFlowStep = false) ∧
        (processCallbackQuery env update).trace =
          (processCallbackQuery env update).trace.filter Effect.isFlowStep ++ rest) ∧
      (∀ t o, .call (.EditMessageText t o) ∈ (processCallbackQuery env update).trace →
        (env.api (answerOf q txt)).Ok = true) ∧
      (∀ e ∈ (processCallbackQuery env update).trace, e.isAction = true →
        ∃ p, q.Message = some p ∧ (env.api (answerOf q txt)).Ok = true ∧
          (env.api (editOf p txt)).Ok = true ∧
          (processCallbackQuery env update).trace.filter Effect.isFlowStep =
            [.call (answerOf q txt), .call (editOf p txt), e]) ∧
      ((env.api (answerOf q txt)).Ok = false →
        (processCallbackQuery env update).trace.filter Effect.isFlowStep =
          [.call (answerOf q txt)]) ∧
      (∀ p, q.Message = some p → (env.api (answerOf q txt)).Ok = true →
        (env.api (editOf p txt)).Ok = false →
        (processCallbackQuery env update).trace.filter Effect.isFlowStep =
          [.call (answerOf q txt), .call (editOf p txt)])) ∧
    (∀ p, q.Data = some CommandReboot → q.Message = some p →
      (env.api (answerOf q CommandReboot)).Ok = true →
      (env.api (editOf p CommandReboot)).Ok = true →
      (processCallbackQuery env update).trace.filter Effect.isFlowStep =
        [.call (.AnswerCallbackQuery q.ID [("text", .str "Rebooting...")]),
         .call (.EditMessageText "Rebooting..."
           [("chat_id", .int p.Chat.ID), ("message_id", .int p.MessageID)]),
         .RebootNow] ∧
      (env.RebootNow.2 = none →
        processCallbackQuery env update =
          ⟨[.call (.AnswerCallbackQuery q.ID [("text", .str "Rebooting...")]),
            .call (.EditMessageText "Rebooting..."
              [("chat_id", .int p.Chat.ID), ("message_id", .int p.MessageID)]),
            .RebootNow], .returned true⟩)) := by
  refine ⟨?_, ?_, ?_⟩
  · intro hd
    simp [processCallbackQuery, hq, hd, Run.bind_deref_some, Run.bind_deref_none]
  · intro txt hd
    obtain ⟨rest, hrest, htrace⟩ := callback_shape env update q txt hq hd
    have hsteps := callback_steps env update q txt hq hd
    refine ⟨?_, ⟨rest, hrest, ?_⟩, ?_, ?_, ?_, ?_⟩
    · rw [htrace]
      simp [flowSteps]
    · rw [hsteps]
      exact htrace
    · intro t o hmem
      have hin := mem_flowSteps_of_flow env update q txt hq hd _ hmem rfl
      by_contra hok
      simp [flowSteps, hok] at hin
      simp [answerOf] at hin
    · intro e he hact
      have hin := mem_flowSteps_of_flow env update q txt hq hd e he
        (isFlowStep_of_isAction e hact)
      rw [hsteps]
      by_cases hok : (env.api (answerOf q txt)).Ok = true
      · cases hp : q.Message with
        | none =>
          simp [flowSteps, hok, hp] at hin
          subst hin
          simp [Effect.isAction] at hact
        | some p =>
          by_cases hed : (env.api (editOf p txt)).Ok = true
          · refine ⟨p, rfl, hok, hed, ?_⟩
            simp only [flowSteps, hok, hp, hed, if_true] at hin ⊢
            rcases List.mem_cons.1 hin with rfl | hin
            · simp [Effect.isAction] at hact
            rcases List.mem_cons.1 hin with rfl | hin
            · simp [Effect.isAction] at hact
            have hsr : MessageShuttingdown ≠ MessageRebooting := by decide
            by_cases hr : processCallbackQuery.message txt = MessageRebooting
            · simp [actionOf, hr] at hin ⊢
              exact hin.symm
            · by_cases hs : processCallbackQuery.message txt = MessageShuttingdown
              · simp [actionOf, hs, hsr] at hin ⊢
                exact hin.symm
              · simp [actionOf, hr, hs] at hin
          · simp only [flowSteps, hok, hp, hed, if_true] at hin
            simp at hin
            rcases hin with rfl | rfl <;> simp [Effect.isAction] at hact
      · simp [flowSteps, hok] at hin
        subst hin
        simp [Effect.isAction] at hact
    · intro hok
      rw [hsteps]
      simp [flowSteps, hok]
    · intro p hp hok hed
      rw [hsteps]
      simp [flowSteps, hok, hp, hed]
  · intro p hd hp hok hed
    have hmsg : processCallbackQuery.message CommandReboot = "Rebooting..." := by decide
    have hsteps := callback_steps env update q CommandReboot hq hd
    rw [answerOf, hmsg] at hok
    rw [editOf, hmsg] at hed
    refine ⟨?_, ?_⟩
    · rw [hsteps]
      simp [flowSteps, answerOf, editOf, hmsg, hok, hed, hp, actionOf, MessageRebooting]
    · intro herr
      rcases hres : env.RebootNow with ⟨output, err⟩
      rw [hres] at herr
      simp only at herr
      subst herr
      simp [processCallbackQuery, hq, hd, hp, Run.bind_deref_some, Run.bind_call, hmsg, hok, hed,
        MessageRebooting, Run.bind_emit, processCallbackQuery.report, hres, Run.bind_pure,
        Run.pure, Pure.pure]
      exact ⟨rfl, rfl⟩

theorem callback_texts (env : Env) (update : Update) (q : CallbackQuery) (txt : String)
    (hq : update.CallbackQuery = some q) (hd : q.Data = some txt) :
    (processCallbackQuery env update).trace.head? = some (.call (answerOf q txt)) ∧
    (∀ id o, .call (.AnswerCallbackQuery id o) ∈ (processCallbackQuery env update).trace →
      o = [("text", .str (processCallbackQuery.message txt))]) ∧
    (∀ t o, .call (.EditMessageText t o) ∈ (processCallbackQuery env update).trace →
      t = processCallbackQuery.message txt) ∧
    (∀ p, q.Message = some p → (env.api (answerOf q txt)).Ok = true →
      .call (editOf p txt) ∈ (processCallbackQuery env update).trace) := by
  obtain ⟨rest, _, htrace⟩ := callback_shape env update q txt hq hd
  have hne : ∀ (e : Effect), e ∈ actionOf (processCallbackQuery.message txt) →
      e.isAction = true := by
    intro e he
    unfold actionOf at he
    split at he
    · simp at he; subst he; rfl
    · split at he
      · simp at he; subst he; rfl
      · simp at he
  refine ⟨?_, ?_, ?_, ?_⟩
  · rw [htrace]
    simp [flowSteps]
  · intro id o hmem
    have hin := mem_flowSteps_of_flow env update q txt hq hd _ hmem rfl
    unfold flowSteps at hin
    rcases List.mem_cons.1 hin with h | hin
    · simp only [answerOf, Effect.call.injEq, Call.AnswerCallbackQuery.injEq] at h
      exact h.2
    · split at hin
      · split at hin
        · simp at hin
        · rcases List.mem_cons.1 hin with h | hin
          · simp [editOf] at h
          · split at hin
            · have := hne _ hin
              simp [Effect.isAction] at this
            · simp at hin
      · simp at hin
  · intro t o hmem
    have hin := mem_flowSteps_of_flow env update q txt hq hd _ hmem rfl
    unfold flowSteps at hin
    rcases List.mem_cons.1 hin with h | hin
    · simp [answerOf] at h
    · split at hin
      · split at hin
        · simp at hin
        · rcases List.mem_cons.1 hin with h | hin
          · simp only [editOf, Effect.call.injEq, Call.EditMessageText.injEq] at h
            exact h.1
          · split at hin
            · have := hne _ hin
              simp [Effect.isAction] at this
            · simp at hin
      · simp at hin
  · intro p hp hok
    rw [htrace]
    simp [flowSteps, hok, hp]

theorem callback_noAction (env : Env) (update : Update) (q : CallbackQuery) (txt : String)
    (hq : update.CallbackQuery = some q) (hd : q.Data = some txt)
    (hact : actionOf (processCallbackQuery.message txt) = []) :
    ∀ e ∈ (processCallbackQuery env update).trace, e.isAction = false := by
  intro e he
  cases hb : e.isAction with
  | false => rfl
  | true =>
    exfalso
    have hin := mem_flowSteps_of_flow env update q txt hq hd e he (isFlowStep_of_isAction e hb)
    unfold flowSteps at hin
    rw [hact] at hin
    rcases List.mem_cons.1 hin with rfl | hin
    · simp [Effect.isAction] at hb
    · split at hin
      · split at hin
        · simp at hin
        · simp at hin
          subst hin
          simp [Effect.isAction] at hb
      · simp at hin

theorem message_of_unmatched (txt : String) (hc : HasPrefix txt CommandCancel = false)
    (hr : HasPrefix txt CommandReboot = false) (hs : HasPrefix txt CommandShutdown = false) :
    processCallbackQuery.message txt = MessageError := by
  simp [processCallbackQuery.message, hc, hr, hs]

/-- C3 scenario: `alice` confirms a reboot and everything succeeds; the run is answer, edit,
`RebootNow`, and returns true. -/
theorem C3_answer_then_edit_then_action_witness :
    processCallbackQuery demoEnv (callbackUpdate (some "alice") (some "/reboot")) =
      ⟨[.call (.AnswerCallbackQuery "q1" [("text", .str "Rebooting...")]),
        .call (.EditMessageText "Rebooting..." [("chat_id", .int 42), ("message_id", .int 7)]),
        .RebootNow], .returned true⟩ :=
  ((C3_answer_then_edit_then_action demoEnv (callbackUpdate (some "alice") (some "/reboot"))
      ⟨"q1", ⟨"Sender", some "alice"⟩, some ⟨7, none, ⟨42⟩, some MessageConfirmReboot⟩,
        some "/reboot"⟩ rfl).2.2
    ⟨7, none, ⟨42⟩, some MessageConfirmReboot⟩ rfl rfl rfl rfl).2 rfl

/-- C4 as stated fails: the token "/rebootx" is none of "/reboot", "/shutdown", "/cancel",
yet the run answers and edits with "Rebooting..." and performs `RebootNow`. -/
theorem C4_longer_token_reboots :
    "/rebootx" ≠ CommandReboot ∧ "/rebootx" ≠ CommandShutdown ∧ "/rebootx" ≠ CommandCancel ∧
    MessageRebooting ≠ MessageError ∧
    processCallbackQuery demoEnv (callbackUpdate (some "alice") (some "/rebootx")) =
      ⟨[.call (.AnswerCallbackQuery "q1" [("text", .str MessageRebooting)]),
        .call (.EditMessageText MessageRebooting [("chat_id", .int 42), ("message_id", .int 7)]),
        .RebootNow], .returned true⟩ := by
  decide

/-- C4, amended: when none of "/cancel", "/reboot", "/shutdown" is a leading prefix of the
callback token, the answer-callback notice is `MessageError` and is the first effect, every
edit in the run sets `MessageError` (and the edit is made once the answer is acknowledged and
the prompt is known), and the run performs no privileged action, whatever the
acknowledgements are. -/
theorem C4_unmatched_token_is_error (env : Env) (update : Update) (q : CallbackQuery)
    (txt : String) (hq : update.CallbackQuery = some q) (hd : q.Data = some txt)
    (hc : HasPrefix txt CommandCancel = false) (hr : HasPrefix txt CommandReboot = false)
    (hs : HasPrefix txt CommandShutdown = false) :
    (processCallbackQuery env update).trace.head? =
      some (.call (.AnswerCallbackQuery q.ID [("text", .str MessageError)])) ∧
    (∀ id o, .call (.AnswerCallbackQuery id o) ∈ (processCallbackQuery env update).trace →
      o = [("text", .str MessageError)]) ∧
    (∀ t o, .call (.EditMessageText t o) ∈ (processCallbackQuery env update).trace →
      t = MessageError) ∧
    (∀ p, q.Message = some p →
      (env.api (.AnswerCallbackQuery q.ID [("text", .str MessageError)])).Ok = true →
      .call (.EditMessageText MessageError
        [("chat_id", .int p.Chat.ID), ("message_id", .int p.MessageID)]) ∈
        (processCallbackQuery env update).trace) ∧
    (∀ e ∈ (processCallbackQuery env update).trace, e.isAction = false) := by
  have hmsg := message_of_unmatched txt hc hr hs
  have htexts := callback_texts env update q txt hq hd
  simp only [answerOf, editOf, hmsg] at htexts
  refine ⟨htexts.1, htexts.2.1, htexts.2.2.1, htexts.2.2.2, ?_⟩
  apply callback_noAction env update q txt hq hd
  rw [hmsg]
  decide

/-- C4 scenario: the token "/frobnicate" is answered and edited with "Error." and nothing
else happens. -/
theorem C4_unmatched_token_is_error_witness :
    HasPrefix "/frobnicate" CommandCancel = false ∧
    HasPrefix "/frobnicate" CommandReboot = false ∧
    HasPrefix "/frobnicate" CommandShutdown = false ∧
    (processCallbackQuery demoEnv (callbackUpdate (some "alice") (some "/frobnicate"))).trace.head?
      = some (.call (.AnswerCallbackQuery "q1" [("text", .str "Error.")])) :=
  ⟨by decide, by decide, by decide,
   (C4_unmatched_token_is_error demoEnv (callbackUpdate (some "alice") (some "/frobnicate"))
      ⟨"q1", ⟨"Sender", some "alice"⟩, some ⟨7, none, ⟨42⟩, some MessageConfirmReboot⟩,
        some "/frobnicate"⟩ "/frobnicate" rfl rfl (by decide) (by decide) (by decide)).1⟩

/-- C7 as stated fails on the text: for the token "/cancel" the notice and the edit carry
"Canceled." (with the full stop), and no call of the run carries "Canceled". -/
theorem C7_cancel_text_has_full_stop :
    (processCallbackQuery demoEnv (callbackUpdate (some "alice") (some "/cancel"))).trace =
      [.call (.AnswerCallbackQuery "q1" [("text", .str "Canceled.")]),
       .call (.EditMessageText "Canceled." [("chat_id", .int 42), ("message_id", .int 7)])] ∧
    .call (.AnswerCallbackQuery "q1" [("text", .str "Canceled")]) ∉
      (processCallbackQuery demoEnv (callbackUpdate (some "alice") (some "/cancel"))).trace ∧
    .call (.EditMessageText "Canceled" [("chat_id", .int 42), ("message_id", .int 7)]) ∉
      (processCallbackQuery demoEnv (callbackUpdate (some "alice") (some "/cancel"))).trace := by
  decide

/-- C7, amended: for the token "/cancel" the answer-callback notice is "Canceled."
(`MessageCanceled`) and is the first effect, every edit in the run sets "Canceled." (and the
edit is made once the answer is acknowledged and the prompt is known), and the run performs
neither `RebootNow` nor `ShutdownNow`, whatever the prompt and the acknowledgements are. -/
theorem C7_cancel_never_acts (env : Env) (update : Update) (q : CallbackQuery)
    (hq : update.CallbackQuery = some q) (hd : q.Data = some CommandCancel) :
    (processCallbackQuery env update).trace.head? =
      some (.call (.AnswerCallbackQuery q.ID [("text", .str "Canceled.")])) ∧
    (∀ id o, .call (.AnswerCallbackQuery id o) ∈ (processCallbackQuery env update).trace →
      o = [("text", .str "Canceled.")]) ∧
    (∀ t o, .call (.EditMessageText t o) ∈ (processCallbackQuery env update).trace →
      t = "Canceled.") ∧
    (∀ p, q.Message = some p →
      (env.api (.AnswerCallbackQuery q.ID [("text", .str "Canceled.")])).Ok = true →
      .call (.EditMessageText "Canceled."
        [("chat_id", .int p.Chat.ID), ("message_id", .int p.MessageID)]) ∈
        (processCallbackQuery env update).trace) ∧
    (∀ e ∈ (processCallbackQuery env update).trace, e.isAction = false) := by
  have hmsg : processCallbackQuery.message CommandCancel = "Canceled." := by decide
  have htexts := callback_texts env update q CommandCancel hq hd
  simp only [answerOf, editOf, hmsg] at htexts
  refine ⟨htexts.1, htexts.2.1, htexts.2.2.1, htexts.2.2.2, ?_⟩
  apply callback_noAction env update q CommandCancel hq hd
  rw [hmsg]
  decide

/-- C7 scenario: `alice` presses Cancel on the prompt; the run starts with the answer and
holds the edit, both with "Canceled.". -/
theorem C7_cancel_never_acts_witness :
    (processCallbackQuery demoEnv (callbackUpdate (some "alice") (some "/cancel"))).trace.head? =
      some (.call (.AnswerCallbackQuery "q1" [("text", .str "Canceled.")])) ∧
    .call (.EditMessageText "Canceled." [("chat_id", .int 42), ("message_id", .int 7)]) ∈
      (processCallbackQuery demoEnv (callbackUpdate (some "alice") (some "/cancel"))).trace :=
  ⟨(C7_cancel_never_acts demoEnv (callbackUpdate (some "alice") (some "/cancel"))
      ⟨"q1", ⟨"Sender", some "alice"⟩, some ⟨7, none, ⟨42⟩, some MessageConfirmReboot⟩,
        some "/cancel"⟩ rfl rfl).1,
   (C7_cancel_never_acts demoEnv (callbackUpdate (some "alice") (some "/cancel"))
      ⟨"q1", ⟨"Sender", some "alice"⟩, some ⟨7, none, ⟨42⟩, some MessageConfirmReboot⟩,
        some "/cancel"⟩ rfl rfl).2.2.2.1
      ⟨7, none, ⟨42⟩, some MessageConfirmReboot⟩ rfl rfl⟩

/-! ## Where the code departs from its contract -/

/-- C1: code evaluation at the failing input.  `mallory` is not allow-listed, yet the
callback event carrying "/reboot" is answered, the prompt is edited and `RebootNow` runs:
`processCallbackQuery` never consults `isAvailableID`. -/
theorem C1_unlisted_callback_reboots :
    isAvailableID demoEnv.availableIds "mallory" = false ∧
    main.onUpdate demoEnv (callbackUpdate (some "mallory") (some "/reboot")) none =
      ⟨[.call (.AnswerCallbackQuery "q1" [("text", .str "Rebooting...")]),
        .call (.EditMessageText "Rebooting..." [("chat_id", .int 42), ("message_id", .int 7)]),
        .RebootNow], .returned ()⟩ ∧
    main.onUpdate demoEnv (callbackUpdate none (some "/shutdown")) none =
      ⟨[.call (.AnswerCallbackQuery "q1" [("text", .str "Shutting down...")]),
        .call (.EditMessageText "Shutting down..."
          [("chat_id", .int 42), ("message_id", .int 7)]),
        .ShutdownNow], .returned ()⟩ := by
  decide

/-- C8: code evaluation at the failing input.  A callback event as the event loop dispatches
it has no message payload; when `RebootNow` fails, the follow-up reads
`update.Message.Chat.ID`, so the run ends in a nil dereference after `RebootNow` and no
message is sent. -/
theorem C8_failed_action_report_panics :
    (callbackUpdate (some "alice") (some "/reboot")).HasMessage = false ∧
    (callbackUpdate (some "alice") (some "/reboot")).HasCallbackQuery = true ∧
    main.onUpdate rebootFailsEnv (callbackUpdate (some "alice") (some "/reboot")) none =
      ⟨[.call (.AnswerCallbackQuery "q1" [("text", .str "Rebooting...")]),
        .call (.EditMessageText "Rebooting..." [("chat_id", .int 42), ("message_id", .int 7)]),
        .RebootNow], .nilDereference⟩ := by
  decide

/-- C9: code evaluation at the failing inputs.  A negative acknowledgement without
description makes the handler dereference a nil description: `processUpdate` panics after
the send, `processCallbackQuery` after the edit.  With a description present both return. -/
theorem C9_nack_without_description_panics :
    (processUpdate nackEnv (textUpdate (some "alice") (some "/start"))) =
      ⟨[.call (.SendChatAction 42 ChatActionTyping),
        .call (.SendMessage 42 MessageHelp defaultOptions)], .nilDereference⟩ ∧
    (processCallbackQuery editNackEnv (callbackUpdate (some "alice") (some "/cancel"))) =
      ⟨[.call (.AnswerCallbackQuery "q1" [("text", .str "Canceled.")]),
        .call (.EditMessageText "Canceled." [("chat_id", .int 42), ("message_id", .int 7)])],
        .nilDereference⟩ ∧
    (processUpdate describedNackEnv (textUpdate (some "alice") (some "/start"))) =
      ⟨[.call (.SendChatAction 42 ChatActionTyping),
        .call (.SendMessage 42 MessageHelp defaultOptions),
        .Printf "*** Failed to send message: %s" [.str "Bad Request"]], .returned false⟩ :=
  ⟨rfl, rfl, rfl⟩

/-- C10: code evaluation at the failing input.  A message without text from the allow-listed
`alice` (a photo, a sticker) makes `processUpdate` dereference the nil `Text`: the run
panics before any effect. -/
theorem C10_message_without_text_panics :
    (textUpdate (some "alice") none).HasMessage = true ∧
    isAvailableID demoEnv.availableIds "alice" = true ∧
    processUpdate demoEnv (textUpdate (some "alice") none) = ⟨[], .nilDereference⟩ := by
  decide

end RpiBot
